import Mathlib

/-!
Verification development for the taskfile-resolution core (package `read`):
recursive include resolution with cycle detection, version-gated merge
semantics, a package.json manifest adapter, and final task normalization.

The filesystem is abstracted as a structure of total functions from paths to
parsed contents; all functions of the package are embedded as executable
Lean definitions mirroring the Go control flow. Machine-level details that
the resolution logic never inspects (raw bytes, YAML grammar, JSON grammar)
are represented by their parsed results stored in the filesystem model.
Fallible Go functions returning `(T, error)` become `Except TfError T`.
In-place mutation of the caller's `ReaderNode` is embedded by returning the
updated node; in-place mutation of the parent taskfile during merging is
embedded by threading the taskfile value through the include fold.
-/

set_option maxRecDepth 4000

namespace TaskRead

/-- Whether `sub` occurs at the head of `l`. -/
def subAtHead : List Char → List Char → Bool
  | [], _ => true
  | _ :: _, [] => false
  | a :: as, b :: bs => a = b && subAtHead as bs

/-- Whether `sub` occurs anywhere inside `l` (`strings.Contains`). -/
def containsSub (sub : List Char) : List Char → Bool
  | [] => subAtHead sub []
  | c :: rest => subAtHead sub (c :: rest) || containsSub sub rest

/-- Whether `pre` is a prefix of `s` (`strings.HasPrefix`). -/
def strIsPrefixOf (pre s : String) : Bool := subAtHead pre.toList s.toList

/-- Whether `suffix` is a suffix of `s` (`strings.HasSuffix`). -/
def strEndsWith (s suffix : String) : Bool :=
  subAtHead suffix.toList.reverse s.toList.reverse

/-- Whether a path is absolute (`filepath.IsAbs` on unix: leading slash). -/
def isAbs (p : String) : Bool := strIsPrefixOf "/" p

/-- Model of `filepath.Join` for already-clean paths: empty components are
dropped, otherwise the components are joined with a slash. -/
def pathJoin (a b : String) : String :=
  if a = "" then b else if b = "" then a else a ++ "/" ++ b

/-- Model of `filepathext.SmartJoin` (the helper package is outside the
sampled source): an absolute second component stands alone, otherwise the
two components are joined. -/
def smartJoin (a b : String) : String :=
  if isAbs b then b else pathJoin a b

/-- Splits a character list at its last slash: returns the part before and
the part after the last `'/'`, or `none` when no slash occurs. -/
def splitLastSlash : List Char → Option (List Char × List Char)
  | [] => none
  | c :: rest =>
    match splitLastSlash rest with
    | some (pre, suf) => some (c :: pre, suf)
    | none => if c = '/' then some ([], rest) else none

/-- Model of `filepath.Dir` for clean paths: everything before the last
slash, `"/"` when the last slash is leading, `"."` when there is no slash. -/
def filepathDir (p : String) : String :=
  match splitLastSlash p.toList with
  | none => "."
  | some ([], _) => "/"
  | some (pre, _) => String.mk pre

/-- Model of `filepath.Base` for clean paths: everything after the last
slash, the path itself when there is no slash, `"."` for the empty path. -/
def filepathBase (p : String) : String :=
  if p = "" then "."
  else
    match splitLastSlash p.toList with
    | none => p
    | some (_, []) => "/"
    | some (_, suf) => String.mk suf

/-- Model of `filepath.Rel(wd, file)` as used for the description pointer:
strips a `wd/` prefix when present; the code falls back to the raw path when
`Rel` fails, which the model represents by returning the path unchanged. -/
def relPath (wd file : String) : String :=
  if strIsPrefixOf (wd ++ "/") file then
    String.mk (file.toList.drop (wd.toList.length + 1))
  else file

/-- Accumulator loop for `parseDigits`. -/
def parseDigitsAux : List Char → Nat → Option Nat
  | [], acc => some acc
  | c :: rest, acc =>
    if c.isDigit then parseDigitsAux rest (acc * 10 + (c.toNat - 48)) else none

/-- Parses a nonempty all-digit character list as a natural number. -/
def parseDigits : List Char → Option Nat
  | [] => none
  | cs => parseDigitsAux cs 0

/-- A variable entry: its value and the directory context it resolves in
(the spec's Variable "carrying an associated directory context"). -/
structure Var where
  static : String
  dir : String
  deriving DecidableEq, Repr

/-- A name-keyed variable mapping (`taskfile.Vars`). -/
structure Vars where
  mapping : List (String × Var)
  deriving DecidableEq, Repr

/-- A single command of a task. -/
structure Cmd where
  cmd : String
  deriving DecidableEq, Repr

/-- An include directive (`taskfile.IncludedTaskfile`). -/
structure IncludedTaskfile where
  taskfile : String
  dir : String
  optional : Bool
  internal : Bool
  aliases : List String
  advancedImport : Bool
  vars : Vars
  baseDir : String
  deriving DecidableEq, Repr

/-- A task (`taskfile.Task`), restricted to the fields the resolution core
reads or writes. `task` is the name field, `taskfileSrc` the provenance
file (Go field `Taskfile`), `includedTaskfileRef` the back-reference to the
include spec attached by advanced imports. -/
structure Task where
  task : String
  dir : String
  cmds : List Cmd
  aliases : List String
  internal : Bool
  taskfileSrc : String
  desc : String
  includeVars : Option Vars
  includedTaskfileVars : Option Vars
  includedTaskfileRef : Option IncludedTaskfile
  deriving DecidableEq, Repr

/-- The task with all fields left at their zero values (`&taskfile.Task{}`). -/
def emptyTask : Task :=
  { task := "", dir := "", cmds := [], aliases := [], internal := false,
    taskfileSrc := "", desc := "", includeVars := none,
    includedTaskfileVars := none, includedTaskfileRef := none }

/-- A declaration (`taskfile.Taskfile`). The task mapping is an association
list with unique keys whose values may be `none`, modelling Go's
`map[string]*Task` with possible nil pointers; includes are an ordered
name-keyed association list. -/
structure Taskfile where
  version : String
  tasks : List (String × Option Task)
  includes : List (String × IncludedTaskfile)
  vars : Vars
  env : Vars
  dotenv : List String
  deriving DecidableEq, Repr

/-- Kind of a filesystem entry as reported by `os.Stat`. -/
inductive FileKind where
  | regular
  | directory
  deriving DecidableEq, Repr

/-- Abstract filesystem and process environment. `stat` returns `none` for
a nonexistent path (stat failures other than nonexistence are not
modelled); `yaml` is the parsed native declaration at a path (`none` for a
decode failure); `raw` is the raw file content as lines; `scripts` is the
parsed `scripts` object of a manifest (`none` for an unmarshal failure). -/
structure FS where
  cwd : String
  goos : String
  stat : String → Option FileKind
  yaml : String → Option Taskfile
  raw : String → Option (List String)
  scripts : String → Option (List (String × String))

/-- A resolution location (`ReaderNode`): directory, entrypoint name,
optional flag and the ancestor chain used for cycle detection. The Go
struct holds a nullable `Parent` pointer; the embedding distinguishes a
root node (nil parent) from a child node (non-nil parent) by constructor. -/
inductive ReaderNode where
  | root (dir entrypoint : String) (optional : Bool)
  | child (dir entrypoint : String) (optional : Bool) (parent : ReaderNode)
  deriving DecidableEq, Repr

/-- Directory of a reader node. -/
def ReaderNode.dir : ReaderNode → String
  | .root d _ _ => d
  | .child d _ _ _ => d

/-- Entrypoint file name of a reader node. -/
def ReaderNode.entrypoint : ReaderNode → String
  | .root _ e _ => e
  | .child _ e _ _ => e

/-- Optional flag of a reader node. -/
def ReaderNode.optionalFlag : ReaderNode → Bool
  | .root _ _ o => o
  | .child _ _ o _ => o

/-- Parent link of a reader node (`nil` for a root node). -/
def ReaderNode.parent : ReaderNode → Option ReaderNode
  | .root _ _ _ => none
  | .child _ _ _ p => some p

/-- Rebuilds a node with a new directory, keeping everything else. -/
def ReaderNode.withDir : ReaderNode → String → ReaderNode
  | .root _ e o, d => .root d e o
  | .child _ e o p, d => .child d e o p

/-- Rebuilds a node with a new entrypoint name, keeping everything else. -/
def ReaderNode.withEntrypoint : ReaderNode → String → ReaderNode
  | .root d _ o, e => .root d e o
  | .child d _ o p, e => .child d e o p

/-- Errors of the resolution core. `dotenvInInclude` is the fixed sentinel
`ErrIncludedTaskfilesCantHaveDotenvs`; `nilTaskPanic` models the Go runtime
panic from dereferencing a nil task pointer; `outOfFuel` is an artifact of
the fuel-bounded embedding of the recursion, not a behavior of the code. -/
inductive TfError where
  | statError (path : String)
  | noTaskfileFound (path : String)
  | openError (path : String)
  | readError (path : String)
  | parseError (path : String)
  | jsonError (path : String)
  | versionError (s : String)
  | nilTaskPanic (path : String)
  | nilParent
  | cycleError (p1 p2 : String)
  | dotenvInInclude
  | outOfFuel
  deriving DecidableEq, Repr

/-- Whether an `Except` result is a success. -/
def isOkB {α : Type} : Except TfError α → Bool
  | .ok _ => true
  | .error _ => false

/-- Association-list lookup by key. -/
def assocFind {α : Type} : List (String × α) → String → Option α
  | [], _ => none
  | (k, v) :: rest, key => if k = key then some v else assocFind rest key

/-- Association-list insertion/replacement keeping keys unique, modelling
Go map assignment. -/
def assocSet {α : Type} : List (String × α) → String → α → List (String × α)
  | [], key, v => [(key, v)]
  | (k, w) :: rest, key, v =>
    if k = key then (key, v) :: rest else (k, w) :: assocSet rest key v

/-- Go map indexing on the task mapping: absent keys and nil values both
read as nil, so both become `none`. -/
def taskLookup (ts : List (String × Option Task)) (k : String) : Option Task :=
  match assocFind ts k with
  | some (some tk) => some tk
  | _ => none

/-- Applies `f` to the task stored under `key`, leaving other entries
untouched. A `none` value is left unchanged (the Go code would panic when
assigning through the nil pointer; all call sites have a non-nil entry). -/
def updateTask (ts : List (String × Option Task)) (key : String)
    (f : Task → Task) : List (String × Option Task) :=
  ts.map fun kv => if kv.1 = key then (kv.1, kv.2.map f) else kv

/-- Splits a character list on dots, mirroring `strings.Split` on `"."`. -/
def splitOnDot : List Char → List (List Char)
  | [] => [[]]
  | c :: rest =>
    if c = '.' then [] :: splitOnDot rest
    else
      match splitOnDot rest with
      | [] => [[c]]
      | h :: t => (c :: h) :: t

/-- Modelled from the spec: `taskfile.ParsedVersion` is outside the sampled
source. Parses the declaration's version numeral `a` or `a.b` into the
rational `a + b / 10 ^ len b`; anything else is a version error. -/
def parsedVersionQ (s : String) : Except TfError Rat :=
  match splitOnDot s.toList with
  | [a] =>
    match parseDigits a with
    | some n => .ok n
    | none => .error (.versionError s)
  | [a, b] =>
    match parseDigits a, parseDigits b with
    | some n, some m => .ok ((n : Rat) + (m : Rat) / ((10 : Rat) ^ b.length))
    | _, _ => .error (.versionError s)
  | _ => .error (.versionError s)

/-- Decidable equality of results, by cases on the two constructors. -/
instance {ε α : Type} [DecidableEq ε] [DecidableEq α] :
    DecidableEq (Except ε α) := fun x y =>
  match x, y with
  | .ok a, .ok b =>
    if h : a = b then .isTrue (by rw [h])
    else .isFalse (fun hc => h (Except.ok.inj hc))
  | .ok _, .error _ => .isFalse (fun hc => Except.noConfusion hc)
  | .error _, .ok _ => .isFalse (fun hc => Except.noConfusion hc)
  | .error a, .error b =>
    if h : a = b then .isTrue (by rw [h])
    else .isFalse (fun hc => h (Except.error.inj hc))

/-- Modelled from the spec: the Templater collaborator applied with an
empty variable set and remove-no-value mode (§6). Its internal grammar is
out of scope; with no variables it only normalizes literal defaults, so on
the template-free strings of this development it returns its input
unchanged, and its accumulated error is always nil. -/
def templaterReplace (s : String) : String := s

/-- The version ≥ 3.0 rebuild of an include spec with the path and
directory template fields passed through the templater (lines 126-135). -/
def templateInclude (inc : IncludedTaskfile) : IncludedTaskfile :=
  { inc with
    taskfile := templaterReplace inc.taskfile,
    dir := templaterReplace inc.dir }

/-- The include spec as seen by the rest of the include step: templated at
version 3.0 and above (lines 124-139), untouched below. -/
def templatedInclude (v : Rat) (inc : IncludedTaskfile) : IncludedTaskfile :=
  if 3 ≤ v then templateInclude inc else inc

/-- Modelled from the spec: `IncludedTaskfile.FullTaskfilePath` is outside
the sampled source; the base directory resolves a relative path template
(§3), an absolute one stands alone. -/
def fullTaskfilePath (inc : IncludedTaskfile) : String :=
  smartJoin inc.baseDir inc.taskfile

/-- Modelled from the spec: `IncludedTaskfile.FullDirPath`, the directory
analogue of `fullTaskfilePath`. -/
def fullDirPath (inc : IncludedTaskfile) : String :=
  smartJoin inc.baseDir inc.dir

/-- The fixed search order over default taskfile names (`defaultTaskfiles`). -/
def defaultTaskfiles : List String :=
  ["Taskfile.yml", "Taskfile.yaml", "Taskfile.dist.yml", "Taskfile.dist.yaml",
   "package.json"]

/-- Probes the default taskfile names inside `path`, returning the first
that exists (the loop of `exists`, lines 345-350). -/
def firstDefault (fs : FS) (path : String) : List String → Option String
  | [] => none
  | n :: rest =>
    let fpath := smartJoin path n
    if (fs.stat fpath).isSome then some fpath else firstDefault fs path rest

/-- The `exists` function (lines 336-353): a stat failure propagates, a
regular file is returned unchanged, a directory is probed for the default
taskfile names, and a directory containing none fails with the "No Taskfile
found" error. -/
def existsPath (fs : FS) (path : String) : Except TfError String :=
  match fs.stat path with
  | none => .error (.statError path)
  | some .regular => .ok path
  | some .directory =>
    match firstDefault fs path defaultTaskfiles with
    | some fpath => .ok fpath
    | none => .error (.noTaskfileFound path)

/-- Modelled from the spec: `searchForFile` is called at line 56 but its
body is not in the sampled source. Per §4.1 the LocationResolver returns a
regular file unchanged, probes the default names inside a directory, and
distinguishes not-found (`none`) from other failures (not modelled). -/
def searchForFile (fs : FS) (path : String) : Except TfError (Option String) :=
  match fs.stat path with
  | none => .ok none
  | some .regular => .ok (some path)
  | some .directory => .ok (firstDefault fs path defaultTaskfiles)

/-- Stamps every parsed task's provenance field with the declaring file
(lines 250-252). The Go loop dereferences each task pointer, so a nil task
entry makes it panic, modelled as `none`. -/
def stampTasks : List (String × Option Task) → String →
    Option (List (String × Option Task))
  | [], _ => some []
  | (_, none) :: _, _ => none
  | (k, some tk) :: rest, file =>
    (stampTasks rest file).map
      (fun r => (k, some { tk with taskfileSrc := file }) :: r)

/-- The `readTaskfile` loader (lines 241-254): opens the file, decodes it,
and stamps each task's provenance. Decode failure wraps the file path. -/
def readTaskfile (fs : FS) (file : String) : Except TfError Taskfile :=
  match fs.stat file with
  | none => .error (.openError file)
  | some _ =>
    match fs.yaml file with
    | none => .error (.parseError file)
    | some t =>
      match stampTasks t.tasks file with
      | none => .error (.nilTaskPanic file)
      | some ts => .ok { t with tasks := ts }

/-- Scanner loop of `findLineNumber`. -/
def findLineNumberAux : List String → String → Nat → String
  | [], _, _ => ""
  | l :: rest, scriptName, line =>
    if containsSub ("\"" ++ scriptName ++ "\":").toList l.toList then
      ":" ++ toString line
    else findLineNumberAux rest scriptName (line + 1)

/-- The manifest line scan (`findLineNumber`, lines 315-334): the 1-indexed
first line containing the literal text `"scriptName":` yields a `:<line>`
suffix; no match yields the empty string. -/
def findLineNumber (lines : List String) (scriptName : String) : String :=
  findLineNumberAux lines scriptName 1

/-- The `readPackageJson` adapter (lines 260-313): reads the manifest,
decodes its `scripts` mapping, picks `yarn` over `npm` when a `yarn.lock`
sibling exists, and synthesizes one two-command task per script entry with
a description pointing at the entry's line. `projectRoot` is accepted and
unused, as in the source. -/
def readPackageJson (fs : FS) (projectRoot file : String) :
    Except TfError Taskfile :=
  match fs.stat file with
  | none => .error (.openError file)
  | some _ =>
    match fs.raw file with
    | none => .error (.readError file)
    | some lines =>
      match fs.scripts file with
      | none => .error (.jsonError file)
      | some scripts =>
        let relFile := relPath fs.cwd file
        let cmd :=
          if (fs.stat (pathJoin (filepathDir file) "yarn.lock")).isSome
          then "yarn" else "npm"
        let tasks := scripts.map fun nc =>
          (nc.1, some { emptyTask with
            taskfileSrc := file,
            desc := "â†’ " ++ relFile ++ findLineNumber lines nc.1,
            cmds := [{ cmd := cmd ++ " install --silent --frozen-lockfile" },
                     { cmd := cmd ++ " run " ++ nc.1 }] })
        .ok { version := "3", tasks := tasks, includes := [],
              vars := { mapping := [] }, env := { mapping := [] }, dotenv := [] }

/-- Resolved `(directory, entrypointName)` of a node, joined as in the
cycle check (lines 363, 366). -/
def nodePath (n : ReaderNode) : String := smartJoin n.dir n.entrypoint

/-- Ancestor walk of `checkCircularIncludes` (lines 362-373): starting from
the checked node, each proper ancestor's resolved path is compared with
`basePath`; a hit produces the cycle error naming the colliding path and
the checked node's parent's path. -/
def checkChain (basePath pPath : String) : ReaderNode → Except TfError Unit
  | .root _ _ _ => .ok ()
  | .child _ _ _ p =>
    if nodePath p = basePath then .error (.cycleError (nodePath p) pPath)
    else checkChain basePath pPath p

/-- The `checkCircularIncludes` guard (lines 355-375): a node without a
parent is a programmer error; otherwise the ancestor chain is walked
comparing resolved paths. (The Go nil-node check has no counterpart, since
nodes are values here.) -/
def checkCircularIncludes (node : ReaderNode) : Except TfError Unit :=
  match node with
  | .root _ _ _ => .error .nilParent
  | .child _ _ _ p => checkChain (nodePath node) (nodePath p) node

/-- Sets the directory context of every variable entry (lines 182-191). -/
def setVarsDir (vs : Vars) (d : String) : Vars :=
  { mapping := vs.mapping.map fun kv => (kv.1, { kv.2 with dir := d }) }

/-- The advanced-import rebasing block (lines 176-199): the child's var and
env entries get the include's full directory path as their directory
context; every child task's directory is prefixed with that path and the
task is stamped with the include's own vars, the child's (just-updated)
vars, and a back-reference to the include spec. The Go code mutates the
child's vars first and then stores the same updated mapping on each task. -/
def applyAdvancedImport (inc : IncludedTaskfile) (ctf : Taskfile) : Taskfile :=
  let d := fullDirPath inc
  let newVars := setVarsDir ctf.vars d
  { ctf with
    vars := newVars,
    env := setVarsDir ctf.env d,
    tasks := ctf.tasks.map fun kv =>
      (kv.1, kv.2.map fun tk =>
        { tk with
          dir := smartJoin d tk.dir,
          includeVars := some inc.vars,
          includedTaskfileVars := some newVars,
          includedTaskfileRef := some inc }) }

/-- Modelled from the spec: variable-mapping merge inside the Merger
collaborator (§6 "merges variable/environment mappings with child/parent
precedence rules", not further specified); child entries overwrite. -/
def mergeVars (p c : Vars) : Vars :=
  { mapping := c.mapping.foldl (fun acc kv => assocSet acc kv.1 kv.2) p.mapping }

/-- Key of a merged task: the namespaces joined with the task name by
colons; the legacy flat merge passes no namespace. -/
def nsTaskName (namespaces : List String) (k : String) : String :=
  String.intercalate ":" (namespaces ++ [k])

/-- Modelled from the spec: the external Merger collaborator (§4.5.h, §6).
Every task from the child is inserted under its namespaced key (its own
key for the legacy flat merge), and variable and environment mappings are
merged. The §6 remark that the bare namespace key receives the child's
default task is realized by the caller's separate alias-synthesis step
(§4.5.i) — the call site checks that the bare namespace key is still unset
right after Merge returns, so Merge itself does not write it. -/
def mergeTaskfiles (t ctf : Taskfile) (inc : Option IncludedTaskfile)
    (namespaces : List String) : Taskfile :=
  { t with
    tasks := ctf.tasks.foldl
      (fun acc kv => assocSet acc (nsTaskName namespaces kv.1) kv.2) t.tasks,
    vars := mergeVars t.vars ctf.vars,
    env := mergeVars t.env ctf.env }

/-- The default-task alias synthesis (lines 205-209): when the child has a
task literally named `default` and the parent has none stored under the
bare namespace key, the task under `<namespace>:default` gets the
namespace and then the include spec's aliases appended to its alias list. -/
def applyDefaultAliases (t ctf : Taskfile) (inc : IncludedTaskfile)
    (ns : String) : Taskfile :=
  if (taskLookup ctf.tasks "default").isSome ∧ taskLookup t.tasks ns = none then
    { t with
      tasks := updateTask t.tasks (ns ++ ":default")
        (fun tk => { tk with aliases := tk.aliases ++ [ns] ++ inc.aliases }) }
  else t

/-- The base-directory annotation pass (lines 112-121): an include whose
base directory is unset gets the resolving node's directory,
first-write-wins. -/
def annotateIncludes (incs : List (String × IncludedTaskfile)) (dir : String) :
    List (String × IncludedTaskfile) :=
  incs.map fun kv =>
    (kv.1, if kv.2.baseDir = "" then { kv.2 with baseDir := dir } else kv.2)

/-- The directory-defaulting pass (lines 99-104): every task with an unset
directory gets the declaring file's directory. The Go loop dereferences
each task pointer, so a nil entry makes it panic, modelled as `none`. -/
def defaultTaskDirs : List (String × Option Task) → String →
    Option (List (String × Option Task))
  | [], _ => some []
  | (_, none) :: _, _ => none
  | (k, some tk) :: rest, d =>
    (defaultTaskDirs rest d).map
      (fun r => (k, some (if tk.dir = "" then { tk with dir := d } else tk)) :: r)

/-- The final normalization pass (lines 230-236): every nil task entry is
replaced by an empty task, and every task's name field is set to its key. -/
def finalizeTasks (ts : List (String × Option Task)) :
    List (String × Option Task) :=
  ts.map fun kv => (kv.1, some { kv.2.getD emptyTask with task := kv.1 })

/-- One step of the include loop (lines 123-212): version-gated templating
of the spec's path fields, location resolution with optional-skip, child
node construction, the cycle guard (whose error is returned unguarded),
the recursive resolution with optional-skip, the version-gated dotenv
check, the advanced-import rebasing, the merge, and the default-task alias
synthesis. `recurse` is the self-similar call to the resolver. -/
def processInclude (fs : FS)
    (recurse : ReaderNode → Except TfError (Taskfile × String × ReaderNode))
    (v : Rat) (node : ReaderNode) (t : Taskfile) (ns : String)
    (inc0 : IncludedTaskfile) : Except TfError Taskfile :=
  let inc := templatedInclude v inc0
  match existsPath fs (fullTaskfilePath inc) with
  | .error e => if inc.optional then .ok t else .error e
  | .ok path =>
    let childNode : ReaderNode :=
      .child (filepathDir path) (filepathBase path) inc.optional node
    match checkCircularIncludes childNode with
    | .error e => .error e
    | .ok _ =>
      match recurse childNode with
      | .error e => if inc.optional then .ok t else .error e
      | .ok (ctf0, _, _) =>
        if 3 ≤ v ∧ ctf0.dotenv ≠ [] then .error .dotenvInInclude
        else
          let ctf := if inc.advancedImport then applyAdvancedImport inc ctf0
                     else ctf0
          let merged := mergeTaskfiles t ctf (some inc) [ns]
          .ok (applyDefaultAliases merged ctf inc ns)

/-- The include loop (the `Range` call at line 123): includes are processed
in order, threading the in-place-mutated parent; the first error stops the
loop and is returned. -/
def foldIncludes (fs : FS)
    (recurse : ReaderNode → Except TfError (Taskfile × String × ReaderNode))
    (v : Rat) (node : ReaderNode) :
    Taskfile → List (String × IncludedTaskfile) → Except TfError Taskfile
  | t, [] => .ok t
  | t, (ns, inc) :: rest =>
    match processInclude fs recurse v node t ns inc with
    | .error e => .error e
    | .ok t1 => foldIncludes fs recurse v node t1 rest

/-- The legacy OS-suffixed sibling merge (lines 217-228): below version 3.0
a sibling named `Taskfile_<GOOS>.yml`, when present, is loaded and merged
flat into the parent. Its tasks are not directory-defaulted. -/
def osMerge (fs : FS) (v : Rat) (node : ReaderNode) (t : Taskfile) :
    Except TfError Taskfile :=
  if v < 3 then
    let ospath := smartJoin node.dir ("Taskfile_" ++ fs.goos ++ ".yml")
    if (fs.stat ospath).isSome then
      match readTaskfile fs ospath with
      | .error e => .error e
      | .ok ostf => .ok (mergeTaskfiles t ostf none [])
    else .ok t
  else .ok t

/-- The entry normalization of `Taskfile` (lines 46-70), which mutates the
caller's node in place: an empty directory is overwritten with the working
directory, and an empty entrypoint makes the resolver locate the default
declaration file and overwrite both the directory and the entrypoint with
its directory and base name. The returned node is the mutated node. -/
def normalizeNode (fs : FS) (node0 : ReaderNode) : Except TfError ReaderNode :=
  let node := if node0.dir = "" then node0.withDir fs.cwd else node0
  if node.entrypoint = "" then
    match searchForFile fs (smartJoin node.dir node.entrypoint) with
    | .error e => .error e
    | .ok none => .error (.noTaskfileFound node.dir)
    | .ok (some p) =>
      .ok ((node.withDir (filepathDir p)).withEntrypoint (filepathBase p))
  else .ok node

/-- Model of `filepath.Abs` for clean paths: an absolute path stands,
a relative one is joined to the working directory. -/
def absPath (fs : FS) (p : String) : String :=
  if isAbs p then p else pathJoin fs.cwd p

/-- Loader selection (lines 85-95): a path ending in `package.json` goes
through the manifest adapter, anything else through the native reader. -/
def loadDeclaration (fs : FS) (projectRoot path : String) :
    Except TfError Taskfile :=
  if strEndsWith path "package.json" then readPackageJson fs projectRoot path
  else readTaskfile fs path

/-- One invocation body of the `Taskfile` resolver (lines 45-239) with the
recursive call abstracted: entry normalization, loading, task directory
defaulting, version parsing, include base-directory annotation, the
include loop, the legacy OS-sibling merge, and the final task
normalization. Returns the merged declaration, the declaring file's
directory, and the mutated node. -/
def TaskfileBody (fs : FS)
    (recurse : ReaderNode → Except TfError (Taskfile × String × ReaderNode))
    (node0 : ReaderNode) : Except TfError (Taskfile × String × ReaderNode) :=
  match normalizeNode fs node0 with
  | .error e => .error e
  | .ok node =>
    let path := smartJoin node.dir node.entrypoint
    match loadDeclaration fs (absPath fs node.dir) path with
    | .error e => .error e
    | .ok t0 =>
      let taskFileDir := filepathDir path
      match defaultTaskDirs t0.tasks taskFileDir with
      | none => .error (.nilTaskPanic path)
      | some ts1 =>
        match parsedVersionQ t0.version with
        | .error e => .error e
        | .ok v =>
          let t1 := { t0 with tasks := ts1,
                              includes := annotateIncludes t0.includes node.dir }
          match foldIncludes fs recurse v node t1 t1.includes with
          | .error e => .error e
          | .ok t2 =>
            match osMerge fs v node t2 with
            | .error e => .error e
            | .ok t3 =>
              .ok ({ t3 with tasks := finalizeTasks t3.tasks }, taskFileDir, node)

/-- The recursive `Taskfile` resolver, bounded by fuel. Every acyclic
resolution of the scenarios below terminates well within the supplied
fuel; exhaustion returns the artificial `outOfFuel` error. -/
def TaskfileResolve (fs : FS) : Nat → ReaderNode →
    Except TfError (Taskfile × String × ReaderNode)
  | 0, _ => .error .outOfFuel
  | fuel + 1, node => TaskfileBody fs (TaskfileResolve fs fuel) node

/-- Handle accounting for `readTaskfile`: mirrors its control flow and
returns how many file handles the call opened and how many it released
before returning on the path taken. The function opens the file at line
242 and returns at lines 248 and 253 without any close. -/
def readTaskfileHandles (fs : FS) (file : String) : Nat × Nat :=
  match fs.stat file with
  | none => (0, 0)
  | some _ =>
    match fs.yaml file with
    | none => (1, 0)
    | some _ => (1, 0)

/-- Handle accounting for `readPackageJson`: the file opened at line 261 is
never closed on any of the return paths (lines 267, 273, 312). -/
def readPackageJsonHandles (fs : FS) (file : String) : Nat × Nat :=
  match fs.stat file with
  | none => (0, 0)
  | some _ =>
    match fs.raw file with
    | none => (1, 0)
    | some _ =>
      match fs.scripts file with
      | none => (1, 0)
      | some _ => (1, 0)

/-- An include spec with only a taskfile path and an optional flag set, as
produced by parsing a plain `includes:` entry. -/
def incOf (tf : String) (opt : Bool) : IncludedTaskfile :=
  { taskfile := tf, dir := "", optional := opt, internal := false,
    aliases := [], advancedImport := false, vars := { mapping := [] },
    baseDir := "" }

/-- Empty variable mapping. -/
def noVars : Vars := { mapping := [] }

/-- Declaration A of the two-file cycle scenario: `/a/Taskfile.yml` includes
`/b/Taskfile.yml` with optional flag `a`. -/
def tfA (a : Bool) : Taskfile :=
  { version := "3", tasks := [("x", some emptyTask)],
    includes := [("b", incOf "/b/Taskfile.yml" a)],
    vars := noVars, env := noVars, dotenv := [] }

/-- Declaration B of the two-file cycle scenario: `/b/Taskfile.yml` includes
`/a/Taskfile.yml` back with optional flag `b`. -/
def tfB (b : Bool) : Taskfile :=
  { version := "3", tasks := [],
    includes := [("a", incOf "/a/Taskfile.yml" b)],
    vars := noVars, env := noVars, dotenv := [] }

/-- Filesystem of the cycle scenario: the two declaration files above, with
the optional flags of the two include edges as parameters. -/
def fsC1 (a b : Bool) : FS :=
  { cwd := "/w", goos := "linux",
    stat := fun p =>
      if p = "/a/Taskfile.yml" ∨ p = "/b/Taskfile.yml" then some .regular
      else none,
    yaml := fun p =>
      if p = "/a/Taskfile.yml" then some (tfA a)
      else if p = "/b/Taskfile.yml" then some (tfB b) else none,
    raw := fun _ => none,
    scripts := fun _ => none }

/-- Root location of the cycle scenario: resolve A. -/
def nodeC1 : ReaderNode := .root "/a" "Taskfile.yml" false

/-- Root declaration of the legacy OS-sibling scenario: version 2, one task. -/
def tfRootOs : Taskfile :=
  { version := "2", tasks := [("a", some emptyTask)], includes := [],
    vars := noVars, env := noVars, dotenv := [] }

/-- OS-suffixed sibling declaration with a task whose directory is unset. -/
def tfSiblingOs : Taskfile :=
  { version := "2",
    tasks := [("os1", some { emptyTask with cmds := [{ cmd := "echo hi" }] })],
    includes := [], vars := noVars, env := noVars, dotenv := [] }

/-- Filesystem of the legacy OS-sibling scenario. -/
def fsC3 : FS :=
  { cwd := "/w", goos := "linux",
    stat := fun p =>
      if p = "/r/Taskfile.yml" ∨ p = "/r/Taskfile_linux.yml" then some .regular
      else none,
    yaml := fun p =>
      if p = "/r/Taskfile.yml" then some tfRootOs
      else if p = "/r/Taskfile_linux.yml" then some tfSiblingOs else none,
    raw := fun _ => none,
    scripts := fun _ => none }

/-- Root location of the legacy OS-sibling scenario. -/
def nodeC3 : ReaderNode := .root "/r" "Taskfile.yml" false

/-- Minimal include-free version-3 declaration with one task. -/
def tfW : Taskfile :=
  { version := "3", tasks := [("a", some emptyTask)], includes := [],
    vars := noVars, env := noVars, dotenv := [] }

/-- Minimal single-file filesystem. -/
def fsW : FS :=
  { cwd := "/w", goos := "linux",
    stat := fun p => if p = "/r/Taskfile.yml" then some .regular else none,
    yaml := fun p => if p = "/r/Taskfile.yml" then some tfW else none,
    raw := fun _ => none,
    scripts := fun _ => none }

/-- Root location of the minimal filesystem. -/
def nodeW : ReaderNode := .root "/r" "Taskfile.yml" false

/-- Manifest filesystem: `/p/package.json` declaring `scripts.build = tsc`,
with a `yarn.lock` sibling exactly when the parameter is true. -/
def fsC7 (yarn : Bool) : FS :=
  { cwd := "/w", goos := "linux",
    stat := fun p =>
      if p = "/p/package.json" then some .regular
      else if yarn ∧ p = "/p/yarn.lock" then some .regular
      else none,
    yaml := fun _ => none,
    raw := fun p =>
      if p = "/p/package.json" then
        some ["\x7b", "  \"scripts\": \x7b", "    \"build\": \"tsc\"", "  \x7d", "\x7d"]
      else none,
    scripts := fun p =>
      if p = "/p/package.json" then some [("build", "tsc")] else none }

/-- Child declaration carrying a dotenv list, for the dotenv scenarios. -/
def ctfDotenv : Taskfile :=
  { version := "3", tasks := [("default", some emptyTask)], includes := [],
    vars := noVars, env := noVars, dotenv := [".env"] }

/-- Filesystem for the dotenv scenarios: a parent at `/p` and a child at
`/c` whose declaration carries a dotenv list. -/
def fsC2 : FS :=
  { cwd := "/w", goos := "linux",
    stat := fun p =>
      if p = "/p/Taskfile.yml" ∨ p = "/c/Taskfile.yml" then some .regular
      else none,
    yaml := fun p => if p = "/c/Taskfile.yml" then some ctfDotenv else none,
    raw := fun _ => none,
    scripts := fun _ => none }

/-- Parent location of the dotenv scenarios. -/
def nodeP2 : ReaderNode := .root "/p" "Taskfile.yml" false

/-- Child location of the dotenv scenarios, as built by the include loop. -/
def nodeChildC2 : ReaderNode := .child "/c" "Taskfile.yml" false nodeP2

/-- Directory-probing filesystem: `/q` is a directory containing only a
`Taskfile.yaml`, exercising the default-name search. -/
def fsC10 : FS :=
  { cwd := "/w", goos := "linux",
    stat := fun p =>
      if p = "/q" then some .directory
      else if p = "/q/Taskfile.yaml" then some .regular else none,
    yaml := fun p => if p = "/q/Taskfile.yaml" then some tfW else none,
    raw := fun _ => none,
    scripts := fun _ => none }

/-- Location with a directory but no entrypoint, for the probing scenario. -/
def nodeC10 : ReaderNode := .root "/q" "" false

/-- Include spec of the dotenv scenarios: a non-optional include of the
child at `/c`. -/
def incC2 : IncludedTaskfile := incOf "/c/Taskfile.yml" false

/-- Optional include spec of the optional-guard scenarios. -/
def incC9 : IncludedTaskfile := incOf "/c/Taskfile.yml" true

/-- Child location built for the optional include of the guard scenarios. -/
def nodeChildC9 : ReaderNode := .child "/c" "Taskfile.yml" true nodeP2

/-- Advanced-import include spec with its own vars and a directory. -/
def incC5 : IncludedTaskfile :=
  { taskfile := "Taskfile.yml", dir := "sub", optional := false,
    internal := false, aliases := [], advancedImport := true,
    vars := { mapping := [("V", { static := "v", dir := "" })] },
    baseDir := "/a" }

/-- Child declaration of the advanced-import scenario: native vars `W` and
one task with a relative directory. -/
def ctfC5 : Taskfile :=
  { version := "3",
    tasks := [("t1", some { emptyTask with dir := "d1" })],
    includes := [],
    vars := { mapping := [("W", { static := "w", dir := "" })] },
    env := { mapping := [("E", { static := "e", dir := "" })] },
    dotenv := [] }

/-- The task `t1` after the advanced-import rebase of the scenario above. -/
def taskC5res : Task :=
  { emptyTask with
    dir := smartJoin (fullDirPath incC5) "d1",
    includeVars := some incC5.vars,
    includedTaskfileVars := some (setVarsDir ctfC5.vars (fullDirPath incC5)),
    includedTaskfileRef := some incC5 }

/-- Parent declaration of the default-alias scenario. -/
def tP6 : Taskfile :=
  { version := "3", tasks := [("main", some emptyTask)], includes := [],
    vars := noVars, env := noVars, dotenv := [] }

/-- Child declaration of the default-alias scenario: it has a `default`
task. -/
def ctfC6 : Taskfile :=
  { version := "3",
    tasks := [("default", some { emptyTask with aliases := ["d0"] })],
    includes := [], vars := noVars, env := noVars, dotenv := [] }

/-- Include spec of the default-alias scenario, carrying its own aliases. -/
def incC6 : IncludedTaskfile :=
  { taskfile := "/s/Taskfile.yml", dir := "", optional := false,
    internal := false, aliases := ["al1", "al2"], advancedImport := false,
    vars := noVars, baseDir := "/a" }

/-- The task `a` of the minimal filesystem after resolution: name stamped,
directory defaulted, provenance recorded. -/
def taskARes : Task :=
  { emptyTask with task := "a", dir := "/r", taskfileSrc := "/r/Taskfile.yml" }

/-- The full resolution result of the minimal filesystem. -/
def tWres : Taskfile :=
  { version := "3", tasks := [("a", some taskARes)], includes := [],
    vars := noVars, env := noVars, dotenv := [] }

/-- With an empty variable set the templater leaves an include spec
unchanged. -/
theorem templateInclude_eq (inc : IncludedTaskfile) : templateInclude inc = inc :=
  rfl

/-- The templated include spec always equals the original, since the
templater has nothing to substitute. -/
theorem templatedInclude_eq (v : Rat) (inc : IncludedTaskfile) :
    templatedInclude v inc = inc := by
  unfold templatedInclude
  rw [templateInclude_eq, ite_self]

/-- Lookup after a value-map over an association list. -/
theorem assocFind_map_snd {α β : Type} (g : α → β)
    (ts : List (String × α)) (k : String) :
    assocFind (ts.map fun kv => (kv.1, g kv.2)) k = (assocFind ts k).map g := by
  induction ts with
  | nil => rfl
  | cons kv rest ih =>
    simp only [List.map_cons, assocFind]
    by_cases hk : kv.1 = k
    · simp [hk]
    · simp [hk, ih]

/-- Task lookup after mapping a function over all stored tasks. -/
theorem taskLookup_map (f : Task → Task) (ts : List (String × Option Task))
    (k : String) :
    taskLookup (ts.map fun kv => (kv.1, kv.2.map f)) k =
      (taskLookup ts k).map f := by
  unfold taskLookup
  rw [assocFind_map_snd (fun v => Option.map f v) ts k]
  cases h : assocFind ts k with
  | none => rfl
  | some v => cases v <;> rfl

/-- Unfolding equation of `updateTask` on a cons cell. -/
theorem updateTask_cons (kv : String × Option Task)
    (rest : List (String × Option Task)) (key : String) (f : Task → Task) :
    updateTask (kv :: rest) key f =
      (if kv.1 = key then (kv.1, kv.2.map f) else kv) :: updateTask rest key f :=
  rfl

/-- Unfolding equation of `assocFind` on a cons cell. -/
theorem assocFind_cons {α : Type} (k : String) (v : α)
    (rest : List (String × α)) (key : String) :
    assocFind ((k, v) :: rest) key =
      if k = key then some v else assocFind rest key :=
  rfl

theorem assocFind_updateTask (ts : List (String × Option Task)) (key : String)
    (f : Task → Task) :
    assocFind (updateTask ts key f) key =
      (assocFind ts key).map (Option.map f) := by
  induction ts with
  | nil => rfl
  | cons kv rest ih =>
    rcases kv with ⟨k1, v1⟩
    rw [updateTask_cons]
    by_cases hk : k1 = key
    · subst hk
      simp [assocFind_cons]
    · simp only [if_neg hk, assocFind_cons]
      exact ih

/-- C1, counterexample. The claim says an A↔B include cycle always fails
resolution with a CycleError, for every combination of the two edges'
optional flags. At the concrete input where A's edge to B is optional (and
B's edge back is not), resolving A succeeds: the cycle error raised inside
the recursive resolution of B is swallowed by the optional-include guard. -/
theorem cycle_optional_swallowed_counterexample :
    isOkB (TaskfileResolve (fsC1 true false) 10 nodeC1) = true := by decide

/-- C1, amended. In the A↔B cycle scenario, resolving A fails with the
CycleError naming both colliding locations whenever A's own include edge is
non-optional, regardless of B's edge's optional flag; the direct cycle
check's error is returned without consulting the optional flag. But when
A's edge to B is optional, the cycle error arising inside the recursive
resolution of B is swallowed like any other child-resolution failure, and
resolving A succeeds. -/
theorem cycle_error_amended (a b : Bool) :
    (a = false → TaskfileResolve (fsC1 a b) 10 nodeC1 =
      .error (.cycleError "/a/Taskfile.yml" "/b/Taskfile.yml")) ∧
    (a = true → isOkB (TaskfileResolve (fsC1 a b) 10 nodeC1) = true) := by
  cases a <;> cases b <;>
    exact ⟨fun h => by first | rfl | exact absurd h (by decide),
           fun h => by first | rfl | exact absurd h (by decide)⟩

/-- C1, witness for the amended theorem: with a non-optional edge from A the
resolution fails with the cycle error naming both locations. -/
theorem cycle_error_amended_witness :
    TaskfileResolve (fsC1 false true) 10 nodeC1 =
      .error (.cycleError "/a/Taskfile.yml" "/b/Taskfile.yml") :=
  (cycle_error_amended false true).1 rfl

/-- C3, counterexample. The claim says every task in a successfully
returned mapping has a non-empty directory. In the version-2 scenario with
an OS-suffixed sibling file whose task has an unset directory, resolution
succeeds and the merged task `os1` keeps an empty directory: the
directory-defaulting pass runs only on the main file's tasks, before the
sibling merge. -/
theorem task_dir_counterexample :
    (TaskfileResolve fsC3 5 nodeC3).toOption.map
      (fun r => (taskLookup r.1.tasks "os1").map Task.dir) =
      some (some "") := by decide

/-- C8, evaluation at the failing input. `readTaskfile` and
`readPackageJson` open their file and return on every path without
releasing the handle: the handle trace of both loaders at existing,
readable files is one handle opened, zero closed. -/
theorem handle_released_violation :
    readTaskfileHandles fsW "/r/Taskfile.yml" = (1, 0) ∧
    readPackageJsonHandles (fsC7 false) "/p/package.json" = (1, 0) :=
  ⟨rfl, rfl⟩

/-- C2. Once the include loop of a parent whose parsed version is at least
3.0 reaches an include whose location resolves, whose cycle check passes
and whose child resolves successfully with a non-empty dotenv list, the
loop — and with it the whole resolution, since `TaskfileBody` returns the
loop's error unchanged — fails with the fixed sentinel
`ErrIncludedTaskfilesCantHaveDotenvs`, whatever the parent's accumulated
state and whatever includes would follow. -/
theorem dotenv_include_error (fs : FS)
    (recurse : ReaderNode → Except TfError (Taskfile × String × ReaderNode))
    (v : Rat) (node : ReaderNode) (t : Taskfile) (ns : String)
    (inc : IncludedTaskfile) (rest : List (String × IncludedTaskfile))
    (p : String) (ctf : Taskfile) (cd : String) (cn : ReaderNode)
    (h3 : 3 ≤ v)
    (hex : existsPath fs (fullTaskfilePath inc) = .ok p)
    (hcyc : checkCircularIncludes
      (.child (filepathDir p) (filepathBase p) inc.optional node) = .ok ())
    (hrec : recurse (.child (filepathDir p) (filepathBase p) inc.optional node)
      = .ok (ctf, cd, cn))
    (hdot : ctf.dotenv ≠ []) :
    foldIncludes fs recurse v node t ((ns, inc) :: rest) =
      .error .dotenvInInclude := by
  simp only [foldIncludes, processInclude, templatedInclude_eq]
  simp only [hex, hcyc, hrec]
  rw [if_pos ⟨h3, hdot⟩]

/-- C2, witness: a concrete include whose child declaration carries a
dotenv list makes the include loop fail with the sentinel error. -/
theorem dotenv_include_error_witness :
    foldIncludes fsC2 (fun _ => .ok (ctfDotenv, "/c", nodeChildC2)) 3 nodeP2
      tfW [("n", incC2)] = .error .dotenvInInclude :=
  dotenv_include_error fsC2 (fun _ => .ok (ctfDotenv, "/c", nodeChildC2)) 3
    nodeP2 tfW "n" incC2 [] "/c/Taskfile.yml" ctfDotenv "/c" nodeChildC2
    (by decide) (by decide) (by decide) rfl (by decide)

/-- C9. One include step of a version ≥ 3.0 parent with an optional
include: (1) when the recursive resolution of the child fails — with any
error — the failure is swallowed and the step succeeds with the parent
unchanged; (2) when the child resolves successfully but declares dotenv
files, the dotenv check sits after the optional guard, so the step fails
with the fixed sentinel error even though the include is optional. -/
theorem optional_include_guard :
    (∀ (fs : FS)
      (recurse : ReaderNode → Except TfError (Taskfile × String × ReaderNode))
      (v : Rat) (node : ReaderNode) (t : Taskfile) (ns : String)
      (inc : IncludedTaskfile) (p : String) (e : TfError),
      3 ≤ v → inc.optional = true →
      existsPath fs (fullTaskfilePath inc) = .ok p →
      checkCircularIncludes
        (.child (filepathDir p) (filepathBase p) inc.optional node) = .ok () →
      recurse (.child (filepathDir p) (filepathBase p) inc.optional node)
        = .error e →
      processInclude fs recurse v node t ns inc = .ok t) ∧
    (∀ (fs : FS)
      (recurse : ReaderNode → Except TfError (Taskfile × String × ReaderNode))
      (v : Rat) (node : ReaderNode) (t : Taskfile) (ns : String)
      (inc : IncludedTaskfile) (p : String) (ctf : Taskfile) (cd : String)
      (cn : ReaderNode),
      3 ≤ v → inc.optional = true →
      existsPath fs (fullTaskfilePath inc) = .ok p →
      checkCircularIncludes
        (.child (filepathDir p) (filepathBase p) inc.optional node) = .ok () →
      recurse (.child (filepathDir p) (filepathBase p) inc.optional node)
        = .ok (ctf, cd, cn) →
      ctf.dotenv ≠ [] →
      processInclude fs recurse v node t ns inc = .error .dotenvInInclude) := by
  constructor
  · intro fs recurse v node t ns inc p e h3 hopt hex hcyc hrec
    rw [hopt] at hcyc hrec
    simp only [processInclude, templatedInclude_eq, hopt, hex, hcyc, hrec]
    simp
  · intro fs recurse v node t ns inc p ctf cd cn h3 hopt hex hcyc hrec hdot
    simp only [processInclude, templatedInclude_eq]
    simp only [hex, hcyc, hrec]
    rw [if_pos ⟨h3, hdot⟩]

/-- C9, witness: both halves at the concrete optional include of the
dotenv scenario — a failing child is swallowed, a dotenv-declaring child
still fails the step. -/
theorem optional_include_guard_witness :
    processInclude fsC2 (fun _ => .error (.parseError "/c/Taskfile.yml")) 3
      nodeP2 tfW "n" incC9 = .ok tfW ∧
    processInclude fsC2 (fun _ => .ok (ctfDotenv, "/c", nodeChildC9)) 3
      nodeP2 tfW "n" incC9 = .error .dotenvInInclude :=
  ⟨optional_include_guard.1 fsC2 (fun _ => .error (.parseError "/c/Taskfile.yml"))
     3 nodeP2 tfW "n" incC9 "/c/Taskfile.yml" (.parseError "/c/Taskfile.yml")
     (by decide) (by decide) (by decide) (by decide) rfl,
   optional_include_guard.2 fsC2 (fun _ => .ok (ctfDotenv, "/c", nodeChildC9))
     3 nodeP2 tfW "n" incC9 "/c/Taskfile.yml" ctfDotenv "/c" nodeChildC9
     (by decide) (by decide) (by decide) (by decide) rfl (by decide)⟩

/-- C5. The advanced-import rebasing applied to a resolved child: every
var and every env entry of the child has its directory context set to the
include's full directory path; every task stored in the result corresponds
to a child task whose directory has been prefixed (joined) with that path
and which carries the include spec's own vars as `includeVars`, the
child's native vars (with the just-updated directory contexts, exactly as
the code stores them) as `includedTaskfileVars` — two separate fields,
never merged — plus the back-reference to the include spec. -/
theorem advanced_import_rebasing (inc : IncludedTaskfile) (ctf : Taskfile) :
    (∀ kv ∈ (applyAdvancedImport inc ctf).vars.mapping,
      kv.2.dir = fullDirPath inc) ∧
    (∀ kv ∈ (applyAdvancedImport inc ctf).env.mapping,
      kv.2.dir = fullDirPath inc) ∧
    (∀ (k : String) (tk : Task),
      taskLookup (applyAdvancedImport inc ctf).tasks k = some tk →
      ∃ tk0, taskLookup ctf.tasks k = some tk0 ∧
        tk.dir = smartJoin (fullDirPath inc) tk0.dir ∧
        tk.includeVars = some inc.vars ∧
        tk.includedTaskfileVars = some (setVarsDir ctf.vars (fullDirPath inc)) ∧
        tk.includedTaskfileRef = some inc) := by
  refine ⟨?_, ?_, ?_⟩
  · intro kv hkv
    simp only [applyAdvancedImport, setVarsDir, List.mem_map] at hkv
    obtain ⟨a, _, rfl⟩ := hkv
    rfl
  · intro kv hkv
    simp only [applyAdvancedImport, setVarsDir, List.mem_map] at hkv
    obtain ⟨a, _, rfl⟩ := hkv
    rfl
  · intro k tk h
    have h2 : taskLookup (ctf.tasks.map fun kv => (kv.1, kv.2.map fun tk0 =>
        { tk0 with
          dir := smartJoin (fullDirPath inc) tk0.dir,
          includeVars := some inc.vars,
          includedTaskfileVars := some (setVarsDir ctf.vars (fullDirPath inc)),
          includedTaskfileRef := some inc })) k = some tk := h
    rw [taskLookup_map] at h2
    cases h0 : taskLookup ctf.tasks k with
    | none => rw [h0] at h2; cases h2
    | some tk0 =>
      rw [h0] at h2
      have h3 := Option.some.inj h2
      rw [← h3]
      exact ⟨tk0, rfl, rfl, rfl, rfl, rfl⟩

/-- C5, witness: the concrete advanced-import scenario — the child's var
entry is rebased to the include's directory and the task `t1` carries both
var scopes and the prefixed directory. -/
theorem advanced_import_rebasing_witness :
    (("W", ({ static := "w", dir := fullDirPath incC5 } : Var)).2.dir
      = fullDirPath incC5) ∧
    (∃ tk0, taskLookup ctfC5.tasks "t1" = some tk0 ∧
      taskC5res.dir = smartJoin (fullDirPath incC5) tk0.dir ∧
      taskC5res.includeVars = some incC5.vars ∧
      taskC5res.includedTaskfileVars
        = some (setVarsDir ctfC5.vars (fullDirPath incC5)) ∧
      taskC5res.includedTaskfileRef = some incC5) :=
  ⟨(advanced_import_rebasing incC5 ctfC5).1
      ("W", { static := "w", dir := fullDirPath incC5 }) (by decide),
   (advanced_import_rebasing incC5 ctfC5).2.2 "t1" taskC5res (by decide)⟩

/-- C6. After a child declaring a task literally named `default` is merged
under a namespace, if the merged parent has no task stored under the bare
namespace key, the task stored under `<namespace>:default` gets its alias
list extended by the namespace string followed by the include spec's
aliases, in that order. -/
theorem default_alias_extension (t0 ctf : Taskfile) (inc : IncludedTaskfile)
    (ns : String) (tk : Task)
    (hdef : (taskLookup ctf.tasks "default").isSome = true)
    (hns : taskLookup (mergeTaskfiles t0 ctf (some inc) [ns]).tasks ns = none)
    (hkey : assocFind (mergeTaskfiles t0 ctf (some inc) [ns]).tasks
      (ns ++ ":default") = some (some tk)) :
    assocFind (applyDefaultAliases (mergeTaskfiles t0 ctf (some inc) [ns])
        ctf inc ns).tasks (ns ++ ":default")
      = some (some { tk with aliases := tk.aliases ++ [ns] ++ inc.aliases }) := by
  unfold applyDefaultAliases
  rw [if_pos ⟨hdef, hns⟩]
  dsimp only
  rw [assocFind_updateTask, hkey]
  rfl

/-- C6, witness: the concrete `sub` scenario — after merging a child with
a `default` task under namespace `sub` into a parent without a `sub` task,
the `sub:default` task's aliases gain `sub` and the include's aliases. -/
theorem default_alias_extension_witness :
    assocFind (applyDefaultAliases (mergeTaskfiles tP6 ctfC6 (some incC6)
        ["sub"]) ctfC6 incC6 "sub").tasks ("sub" ++ ":default")
      = some (some { emptyTask with aliases := ["d0"] ++ ["sub"] ++ incC6.aliases }) :=
  default_alias_extension tP6 ctfC6 incC6 "sub"
    { emptyTask with aliases := ["d0"] }
    (by decide) (by decide) (by decide)

/-- C7. For every manifest whose scripts mapping is exactly
`{"build": "tsc"}`, the synthesized declaration has exactly one task,
keyed `build`, whose two commands are `<pm> install --silent
--frozen-lockfile` and `<pm> run build`, where the executable name `pm` is
`yarn` when a `yarn.lock` sibling of the manifest exists and `npm`
otherwise. -/
theorem package_json_build (fs : FS) (root file : String) (k : FileKind)
    (lines : List String)
    (hstat : fs.stat file = some k)
    (hraw : fs.raw file = some lines)
    (hscripts : fs.scripts file = some [("build", "tsc")]) :
    readPackageJson fs root file = .ok
      { version := "3",
        tasks := [("build", some { emptyTask with
          taskfileSrc := file,
          desc := "â†’ " ++ relPath fs.cwd file ++ findLineNumber lines "build",
          cmds := [{ cmd := (if (fs.stat (pathJoin (filepathDir file)
                        "yarn.lock")).isSome then "yarn" else "npm") ++
                      " install --silent --frozen-lockfile" },
                   { cmd := (if (fs.stat (pathJoin (filepathDir file)
                        "yarn.lock")).isSome then "yarn" else "npm") ++
                      " run build" }] })],
        includes := [], vars := noVars, env := noVars, dotenv := [] } := by
  simp only [readPackageJson, hstat, hraw, hscripts]
  cases hY : (fs.stat (pathJoin (filepathDir file) "yarn.lock")).isSome <;> rfl

/-- A node rebuilt with a new directory keeps its entrypoint. -/
theorem withDir_entrypoint (n : ReaderNode) (d : String) :
    (n.withDir d).entrypoint = n.entrypoint := by
  cases n <;> rfl

/-- Joining a nonempty path with an empty component returns the path. -/
theorem smartJoin_empty_right (a : String) (h : a ≠ "") : smartJoin a "" = a := by
  simp [smartJoin, show isAbs "" = false from rfl, pathJoin, h]

/-- The directory part of a path is never the empty string. -/
theorem filepathDir_ne_empty (p : String) : filepathDir p ≠ "" := by
  unfold filepathDir
  cases hs : splitLastSlash p.toList with
  | none => exact (by decide : ("." : String) ≠ "")
  | some pr =>
    rcases pr with ⟨pre, suf⟩
    cases pre with
    | nil => exact (by decide : ("/" : String) ≠ "")
    | cons c cs => exact fun hc => List.noConfusion (congrArg String.data hc)

/-- Inversion of a successful resolver call into its pipeline stages: the
fuel was positive, the node normalized, the declaration loaded, the task
directories defaulted, the version parsed, the include loop succeeded, the
legacy sibling merge succeeded, and the result is the final normalization
of the merged declaration together with the declaring file's directory and
the mutated node. -/
theorem taskfileResolve_ok_inv (fs : FS) (fuel : Nat) (node0 : ReaderNode)
    (t : Taskfile) (d : String) (n' : ReaderNode)
    (h : TaskfileResolve fs fuel node0 = .ok (t, d, n')) :
    ∃ (fuel1 : Nat) (node1 : ReaderNode) (t0 : Taskfile)
      (ts1 : List (String × Option Task)) (v : Rat) (t2 t3 : Taskfile),
      fuel = fuel1 + 1 ∧
      normalizeNode fs node0 = .ok node1 ∧
      loadDeclaration fs (absPath fs node1.dir)
        (smartJoin node1.dir node1.entrypoint) = .ok t0 ∧
      defaultTaskDirs t0.tasks
        (filepathDir (smartJoin node1.dir node1.entrypoint)) = some ts1 ∧
      parsedVersionQ t0.version = .ok v ∧
      foldIncludes fs (TaskfileResolve fs fuel1) v node1
        { t0 with tasks := ts1,
                  includes := annotateIncludes t0.includes node1.dir }
        (annotateIncludes t0.includes node1.dir) = .ok t2 ∧
      osMerge fs v node1 t2 = .ok t3 ∧
      t = { t3 with tasks := finalizeTasks t3.tasks } ∧
      d = filepathDir (smartJoin node1.dir node1.entrypoint) ∧
      n' = node1 := by
  cases fuel with
  | zero => cases h
  | succ fuel1 =>
    have hb : TaskfileBody fs (TaskfileResolve fs fuel1) node0 = .ok (t, d, n') := h
    unfold TaskfileBody at hb
    cases hn : normalizeNode fs node0 with
    | error e => rw [hn] at hb; cases hb
    | ok node1 =>
      rw [hn] at hb
      dsimp only at hb
      cases hl : loadDeclaration fs (absPath fs node1.dir)
          (smartJoin node1.dir node1.entrypoint) with
      | error e => rw [hl] at hb; cases hb
      | ok t0 =>
        rw [hl] at hb
        dsimp only at hb
        cases hd : defaultTaskDirs t0.tasks
            (filepathDir (smartJoin node1.dir node1.entrypoint)) with
        | none => rw [hd] at hb; cases hb
        | some ts1 =>
          rw [hd] at hb
          dsimp only at hb
          cases hv : parsedVersionQ t0.version with
          | error e => rw [hv] at hb; cases hb
          | ok v =>
            rw [hv] at hb
            dsimp only at hb
            cases hf : foldIncludes fs (TaskfileResolve fs fuel1) v node1
                { t0 with tasks := ts1,
                          includes := annotateIncludes t0.includes node1.dir }
                (annotateIncludes t0.includes node1.dir) with
            | error e => rw [hf] at hb; cases hb
            | ok t2 =>
              rw [hf] at hb
              dsimp only at hb
              cases ho : osMerge fs v node1 t2 with
              | error e => rw [ho] at hb; cases hb
              | ok t3 =>
                rw [ho] at hb
                dsimp only at hb
                simp only [Except.ok.injEq, Prod.mk.injEq] at hb
                obtain ⟨h1, h2, h3⟩ := hb
                exact ⟨fuel1, node1, t0, ts1, v, t2, t3, rfl, rfl, hl, hd, hv,
                  hf, ho, h1.symm, h2.symm, h3.symm⟩

/-- Alias synthesis never touches the includes list. -/
theorem applyDefaultAliases_includes (t ctf : Taskfile) (inc : IncludedTaskfile)
    (ns : String) : (applyDefaultAliases t ctf inc ns).includes = t.includes := by
  unfold applyDefaultAliases
  split <;> rfl

/-- Alias synthesis never touches the version string. -/
theorem applyDefaultAliases_version (t ctf : Taskfile) (inc : IncludedTaskfile)
    (ns : String) : (applyDefaultAliases t ctf inc ns).version = t.version := by
  unfold applyDefaultAliases
  split <;> rfl

/-- A successful include step leaves the parent's includes list and version
string unchanged. -/
theorem processInclude_preserves (fs : FS)
    (recurse : ReaderNode → Except TfError (Taskfile × String × ReaderNode))
    (v : Rat) (node : ReaderNode) (t : Taskfile) (ns : String)
    (inc0 : IncludedTaskfile) (t' : Taskfile)
    (h : processInclude fs recurse v node t ns inc0 = .ok t') :
    t'.includes = t.includes ∧ t'.version = t.version := by
  unfold processInclude at h
  simp only [templatedInclude_eq] at h
  cases hex : existsPath fs (fullTaskfilePath inc0) with
  | error e =>
    rw [hex] at h
    dsimp only at h
    split at h
    · cases h; exact ⟨rfl, rfl⟩
    · cases h
  | ok p =>
    rw [hex] at h
    dsimp only at h
    cases hcyc : checkCircularIncludes
        (.child (filepathDir p) (filepathBase p) inc0.optional node) with
    | error e => rw [hcyc] at h; cases h
    | ok u =>
      rw [hcyc] at h
      dsimp only at h
      cases hrec : recurse
          (.child (filepathDir p) (filepathBase p) inc0.optional node) with
      | error e =>
        rw [hrec] at h
        dsimp only at h
        split at h
        · cases h; exact ⟨rfl, rfl⟩
        · cases h
      | ok trip =>
        rcases trip with ⟨ctf0, cd, cn⟩
        rw [hrec] at h
        dsimp only at h
        split at h
        · cases h
        · cases h
          exact ⟨by rw [applyDefaultAliases_includes]; rfl,
                 by rw [applyDefaultAliases_version]; rfl⟩

/-- A successful include loop leaves the parent's includes list and version
string unchanged. -/
theorem foldIncludes_preserves (fs : FS)
    (recurse : ReaderNode → Except TfError (Taskfile × String × ReaderNode))
    (v : Rat) (node : ReaderNode) :
    ∀ (l : List (String × IncludedTaskfile)) (t t' : Taskfile),
      foldIncludes fs recurse v node t l = .ok t' →
      t'.includes = t.includes ∧ t'.version = t.version := by
  intro l
  induction l with
  | nil =>
    intro t t' h
    cases h
    exact ⟨rfl, rfl⟩
  | cons kv rest ih =>
    intro t t' h
    rcases kv with ⟨ns, inc⟩
    unfold foldIncludes at h
    cases hp : processInclude fs recurse v node t ns inc with
    | error e => rw [hp] at h; cases h
    | ok t1 =>
      rw [hp] at h
      obtain ⟨hi1, hv1⟩ := processInclude_preserves fs recurse v node t ns inc t1 hp
      obtain ⟨hi2, hv2⟩ := ih t1 t' h
      exact ⟨hi2.trans hi1, hv2.trans hv1⟩

/-- A successful legacy sibling merge leaves the includes list and version
string unchanged. -/
theorem osMerge_preserves (fs : FS) (v : Rat) (node : ReaderNode)
    (t t' : Taskfile) (h : osMerge fs v node t = .ok t') :
    t'.includes = t.includes ∧ t'.version = t.version := by
  unfold osMerge at h
  split at h
  · dsimp only at h
    split at h
    · cases hr : readTaskfile fs
          (smartJoin node.dir ("Taskfile_" ++ fs.goos ++ ".yml")) with
      | error e => rw [hr] at h; cases h
      | ok ostf =>
        rw [hr] at h
        dsimp only at h
        cases h
        exact ⟨rfl, rfl⟩
    · cases h; exact ⟨rfl, rfl⟩
  · cases h; exact ⟨rfl, rfl⟩

/-- Every entry of the final normalization is the image of an entry of its
input, with the nil default applied and the name stamped. -/
theorem finalizeTasks_mem (ts : List (String × Option Task)) :
    ∀ kv ∈ finalizeTasks ts, ∃ a ∈ ts,
      kv = (a.1, some { a.2.getD emptyTask with task := a.1 }) := by
  intro kv hkv
  simp only [finalizeTasks, List.mem_map] at hkv
  obtain ⟨a, ha, rfl⟩ := hkv
  exact ⟨a, ha, rfl⟩

/-- After directory defaulting with a nonempty default, every entry holds a
task with a nonempty directory. -/
theorem defaultTaskDirs_mem (dd : String) (hdd : dd ≠ "") :
    ∀ (ts r : List (String × Option Task)), defaultTaskDirs ts dd = some r →
      ∀ kv ∈ r, ∃ tk : Task, kv.2 = some tk ∧ tk.dir ≠ "" := by
  intro ts
  induction ts with
  | nil =>
    intro r h kv hkv
    cases h
    cases hkv
  | cons a rest ih =>
    rcases a with ⟨k, v⟩
    cases v with
    | none => intro r h; cases h
    | some tk =>
      intro r h kv hkv
      unfold defaultTaskDirs at h
      cases hrest : defaultTaskDirs rest dd with
      | none => rw [hrest] at h; cases h
      | some r0 =>
        rw [hrest] at h
        cases h
        rcases List.mem_cons.mp hkv with h1 | h1
        · subst h1
          by_cases htk : tk.dir = ""
          · exact ⟨{ tk with dir := dd }, by rw [if_pos htk], hdd⟩
          · exact ⟨tk, by rw [if_neg htk], htk⟩
        · exact ih r0 hrest kv h1

/-- C4. Every task mapping returned by a successful resolution has been
through the final normalization pass, which runs after the include merges
and the legacy sibling merge: every entry holds a non-nil task (nil-valued
entries having been replaced by a synthesized empty task) whose name field
equals the key under which it is stored. -/
theorem task_name_normalized (fs : FS) (fuel : Nat) (node : ReaderNode)
    (t : Taskfile) (d : String) (n' : ReaderNode)
    (h : TaskfileResolve fs fuel node = .ok (t, d, n')) :
    ∀ kv ∈ t.tasks, ∃ tk : Task, kv.2 = some tk ∧ tk.task = kv.1 := by
  obtain ⟨fuel1, node1, t0, ts1, v, t2, t3, hfuel, hn, hl, hd, hv, hf, ho,
    ht, hdq, hn'⟩ := taskfileResolve_ok_inv fs fuel node t d n' h
  intro kv hkv
  rw [ht] at hkv
  obtain ⟨a, _, rfl⟩ := finalizeTasks_mem t3.tasks kv hkv
  exact ⟨{ a.2.getD emptyTask with task := a.1 }, rfl, rfl⟩

/-- C4, witness: the minimal resolution stores task `a` under key `a` with
its name field stamped. -/
theorem task_name_normalized_witness :
    ∃ tk : Task, (("a", some taskARes) : String × Option Task).2 = some tk ∧
      tk.task = "a" :=
  task_name_normalized fsW 1 nodeW tWres "/r" nodeW (by decide)
    ("a", some taskARes) (by decide)

/-- C3, amended. The directory-defaulting pass guarantees nonempty task
directories only for the tasks of the resolved file itself: for a
successful resolution whose declaration has no includes and whose version
parses to at least 3.0 (so that neither an include merge nor the legacy
OS-sibling merge — whose tasks are not directory-defaulted — contributes
entries), every task in the returned mapping has a nonempty directory.
Tasks merged from a version < 3.0 OS-suffixed sibling keep an unset
directory, as the counterexample shows, and a task synthesized for a
nil-valued entry by the final pass would get an empty directory as well. -/
theorem task_dir_amended (fs : FS) (fuel : Nat) (node : ReaderNode)
    (t : Taskfile) (d : String) (n' : ReaderNode) (v : Rat)
    (h : TaskfileResolve fs fuel node = .ok (t, d, n'))
    (hinc : t.includes = [])
    (hv : parsedVersionQ t.version = .ok v)
    (h3 : 3 ≤ v) :
    ∀ kv ∈ t.tasks, ∃ tk : Task, kv.2 = some tk ∧ tk.dir ≠ "" := by
  obtain ⟨fuel1, node1, t0, ts1, v0, t2, t3, hfuel, hn, hl, hd, hv0, hf, ho,
    ht, hdq, hn'⟩ := taskfileResolve_ok_inv fs fuel node t d n' h
  obtain ⟨hi23, hv23⟩ := osMerge_preserves fs v0 node1 t2 t3 ho
  obtain ⟨hi12, hv12⟩ := foldIncludes_preserves fs (TaskfileResolve fs fuel1)
    v0 node1 (annotateIncludes t0.includes node1.dir) _ t2 hf
  have htinc : t.includes = annotateIncludes t0.includes node1.dir := by
    rw [ht]
    exact (hi23.trans hi12 : t3.includes = _)
  have hA : annotateIncludes t0.includes node1.dir = [] := htinc ▸ hinc
  have htv : t.version = t0.version := by
    rw [ht]
    exact (hv23.trans hv12 : t3.version = _)
  have hvv : v = v0 := by
    rw [htv] at hv
    exact Except.ok.inj (hv.symm.trans hv0)
  rw [hA] at hf
  cases hf
  unfold osMerge at ho
  rw [if_neg (not_lt.mpr (hvv ▸ h3))] at ho
  cases ho
  intro kv hkv
  rw [ht] at hkv
  obtain ⟨a, ha, rfl⟩ := finalizeTasks_mem _ kv hkv
  obtain ⟨tk0, ha2, ha3⟩ := defaultTaskDirs_mem _
    (filepathDir_ne_empty (smartJoin node1.dir node1.entrypoint))
    t0.tasks ts1 hd a ha
  refine ⟨{ tk0 with task := a.1 }, ?_, ha3⟩
  show some { a.2.getD emptyTask with task := a.1 } = _
  rw [ha2]
  rfl

/-- C3, witness for the amended theorem: the minimal include-free version-3
resolution returns task `a` with the nonempty defaulted directory `/r`. -/
theorem task_dir_amended_witness :
    ∃ tk : Task, (("a", some taskARes) : String × Option Task).2 = some tk ∧
      tk.dir ≠ "" :=
  task_dir_amended fsW 1 nodeW tWres "/r" nodeW 3 (by decide) rfl (by decide)
    (by decide) ("a", some taskARes) (by decide)

/-- C10. The resolver's entry normalization is the embedding of the
in-place mutation of the caller's node: (1) a node with an empty directory
and a given entrypoint has its directory overwritten with the working
directory; (2) a node with a directory but no entrypoint has both fields
overwritten with the directory and base name of the located default
declaration file; (3) the node returned by a successful resolution is
exactly the normalized input node, so the caller observes the resolved
location. -/
theorem node_mutation :
    (∀ (fs : FS) (node : ReaderNode), node.dir = "" → node.entrypoint ≠ "" →
      normalizeNode fs node = .ok (node.withDir fs.cwd)) ∧
    (∀ (fs : FS) (node : ReaderNode) (p : String), node.dir ≠ "" →
      node.entrypoint = "" → searchForFile fs node.dir = .ok (some p) →
      normalizeNode fs node =
        .ok ((node.withDir (filepathDir p)).withEntrypoint (filepathBase p))) ∧
    (∀ (fs : FS) (fuel : Nat) (node : ReaderNode) (t : Taskfile) (d : String)
      (n' : ReaderNode), TaskfileResolve fs fuel node = .ok (t, d, n') →
      normalizeNode fs node = .ok n') := by
  refine ⟨?_, ?_, ?_⟩
  · intro fs node hdir hent
    unfold normalizeNode
    rw [if_pos hdir]
    dsimp only
    rw [withDir_entrypoint, if_neg hent]
  · intro fs node p hdir hent hsearch
    unfold normalizeNode
    rw [if_neg hdir]
    dsimp only
    rw [if_pos hent, hent, smartJoin_empty_right node.dir hdir, hsearch]
  · intro fs fuel node t d n' h
    obtain ⟨fuel1, node1, t0, ts1, v, t2, t3, hfuel, hn, hl, hd, hv, hf, ho,
      ht, hdq, hn'⟩ := taskfileResolve_ok_inv fs fuel node t d n' h
    rw [hn']
    exact hn

/-- C10, witness: all three parts at concrete locations — the empty
directory is replaced by the working directory, the empty entrypoint is
filled from the probed `Taskfile.yaml`, and the resolver returns the
normalized node. -/
theorem node_mutation_witness :
    normalizeNode fsW (.root "" "Taskfile.yml" false) =
      .ok (.root "/w" "Taskfile.yml" false) ∧
    normalizeNode fsC10 nodeC10 = .ok (.root "/q" "Taskfile.yaml" false) ∧
    normalizeNode fsW nodeW = .ok nodeW :=
  ⟨node_mutation.1 fsW (.root "" "Taskfile.yml" false) rfl (by decide),
   node_mutation.2.1 fsC10 nodeC10 "/q/Taskfile.yaml" (by decide) rfl
     (by decide),
   node_mutation.2.2 fsW 1 nodeW tWres "/r" nodeW (by decide)⟩

/-- C7, witness: the concrete manifest without a `yarn.lock` sibling
produces the `npm` command pair (and, by the theorem at a filesystem with
the sibling, `yarn` otherwise). -/
theorem package_json_build_witness :
    readPackageJson (fsC7 false) "/p" "/p/package.json" = .ok
      { version := "3",
        tasks := [("build", some { emptyTask with
          taskfileSrc := "/p/package.json",
          desc := "â†’ " ++ relPath (fsC7 false).cwd "/p/package.json" ++
            findLineNumber ["\x7b", "  \"scripts\": \x7b", "    \"build\": \"tsc\"",
              "  \x7d", "\x7d"] "build",
          cmds := [{ cmd := (if ((fsC7 false).stat (pathJoin
                        (filepathDir "/p/package.json") "yarn.lock")).isSome
                        then "yarn" else "npm") ++
                      " install --silent --frozen-lockfile" },
                   { cmd := (if ((fsC7 false).stat (pathJoin
                        (filepathDir "/p/package.json") "yarn.lock")).isSome
                        then "yarn" else "npm") ++ " run build" }] })],
        includes := [], vars := noVars, env := noVars, dotenv := [] } :=
  package_json_build (fsC7 false) "/p" "/p/package.json" .regular
    ["\x7b", "  \"scripts\": \x7b", "    \"build\": \"tsc\"", "  \x7d", "\x7d"]
    rfl rfl rfl

end TaskRead
